import Mathlib

/-!
Shallow embedding of the `ShaderCanvas` core of the `marromugi/sketch`
repository, and proofs about the spec's claims.

The embedded code:
* `src/ShaderCanvas.tsx` (the monolithic component, exported as the public
  `ShaderCanvas`): the setup effect, its dependency list, the animation
  loop (`animate`) and the imperative control surface
  (`play`/`pause`/`reset`/`setTime`/`setPlaybackSpeed`/`updateUniform`/
  `getUniform`/`captureFrame`).
* `src/components/ShaderCanvas/hooks/useResizeObserver.ts`: `calculateSize`.
* `src/components/ShaderCanvas/constants.ts`: the shader source constants.

JavaScript numbers are modelled as `ℚ` (the values the claims touch are
exact decimal arithmetic, no rounding is involved), uniform stores as
association lists, and the `null`-able refs as `Option`.
-/

namespace Sketch

/-- Uniform values (`UniformValue` in `types.ts`): the claims only exercise
scalar numbers and 2-vectors, the two shapes the built-ins use. -/
inductive UValue where
  | num : ℚ → UValue
  | vec2 : ℚ → ℚ → UValue
  deriving DecidableEq, Repr

/-- A material's uniform store: JS object mapping names to boxed values. -/
abbrev Uniforms := List (String × UValue)

/-- `material.uniforms[name]?.value`: look a uniform's current value up. -/
def getU (us : Uniforms) (name : String) : Option UValue :=
  us.lookup name

/-- Assignment `material.uniforms[name].value = v` guarded by
`if (material.uniforms[name])`: updates the entry when present, otherwise
leaves the store untouched (the guard fails on an absent property). -/
def setU (us : Uniforms) (name : String) (v : UValue) : Uniforms :=
  match us with
  | [] => []
  | (k, w) :: rest =>
      if k = name then (k, v) :: rest else (k, w) :: setU rest name v

/-- Unguarded JS assignment `obj[key] = v`: overwrite when present,
append when absent (used when merging caller uniforms over built-ins). -/
def jsSetU (us : Uniforms) (name : String) (v : UValue) : Uniforms :=
  match us with
  | [] => [(name, v)]
  | (k, w) :: rest =>
      if k = name then (k, v) :: rest else (k, w) :: jsSetU rest name v

/-- Uniform construction in the setup effect (ShaderCanvas.tsx lines
98-109): seed `u_time`, `u_resolution`, `u_mouse`/`u_mouseNormalized`
per enabled flag, then copy the caller's custom uniforms over them. -/
def buildUniforms (enableTime enableResolution enableMouse : Bool)
    (custom : Uniforms) : Uniforms :=
  let base :=
    (if enableTime then [("u_time", UValue.num 0)] else []) ++
    (if enableResolution then [("u_resolution", UValue.vec2 1 1)] else []) ++
    (if enableMouse then
      [("u_mouse", UValue.vec2 0 0), ("u_mouseNormalized", UValue.vec2 0 0)]
     else [])
  custom.foldl (fun us kv => jsSetU us kv.1 kv.2) base

/-- `SizeMode` from `types.ts`. The aspect variant's fields are, in order,
the aspect ratio and the optional `maxWidth`/`maxHeight` bounds. -/
inductive SizeMode where
  | fixed : ℚ → ℚ → SizeMode
  | fill : SizeMode
  | viewport : SizeMode
  | aspect : ℚ → Option ℚ → Option ℚ → SizeMode
  deriving DecidableEq, Repr

/-- JS `a || b` on numbers (as used on sizes): falls back when `a` is 0. -/
def jsOr (a b : ℚ) : ℚ := if a = 0 then b else a

/-- JS truthiness test `x && cond` for an optional numeric bound `x`:
true when the bound is present, nonzero, and `cond` holds. -/
def jsBoundActive (bound : Option ℚ) (cond : ℚ → Prop) [DecidablePred cond] :
    Bool :=
  match bound with
  | none => false
  | some m => decide (¬ m = 0 ∧ cond m)

/-- The aspect branch's opening step (useResizeObserver.ts lines 47-53):
`width = containerWidth; height = width / aspectRatio;` then recompute
from the container height when the derived height overflows it. -/
def aspectBase (r cw ch : ℚ) : ℚ × ℚ :=
  if cw / r > ch then (ch * r, ch) else (cw, cw / r)

/-- The `maxWidth` clamp block (lines 55-58):
`if (sizeMode.maxWidth && width > sizeMode.maxWidth)` then
`width = maxWidth; height = width / aspectRatio`. -/
def codeClampW (r : ℚ) (mw : Option ℚ) (p : ℚ × ℚ) : ℚ × ℚ :=
  if jsBoundActive mw (fun b => p.1 > b) then (mw.getD 0, mw.getD 0 / r)
  else p

/-- The `maxHeight` clamp block (lines 60-63):
`if (sizeMode.maxHeight && height > sizeMode.maxHeight)` then
`height = maxHeight; width = height * aspectRatio`. -/
def codeClampH (r : ℚ) (mh : Option ℚ) (p : ℚ × ℚ) : ℚ × ℚ :=
  if jsBoundActive mh (fun b => p.2 > b) then (mh.getD 0 * r, mh.getD 0)
  else p

/-- `calculateSize` from `useResizeObserver.ts` (lines 36-75): logical
size from the size mode, the container's measured size, and the window
size. -/
def calculateSize (m : SizeMode) (containerW containerH windowW windowH : ℚ) :
    ℚ × ℚ :=
  match m with
  | SizeMode.fixed w h => (w, h)
  | SizeMode.viewport => (windowW, windowH)
  | SizeMode.aspect r mw mh =>
      codeClampH r mh
        (codeClampW r mw
          (aspectBase r (jsOr containerW windowW) (jsOr containerH windowH)))
  | SizeMode.fill => (jsOr containerW 300, jsOr containerH 150)

/-- Modelled from the spec (claim C7's wording): "width is clamped to
maxWidth (recomputing height to preserve the ratio)". -/
def specClampW (r : ℚ) (mw : Option ℚ) (p : ℚ × ℚ) : ℚ × ℚ :=
  match mw with
  | some m => (min p.1 m, min p.1 m / r)
  | none => p

/-- Modelled from the spec (claim C7's wording): "afterwards height is
clamped to maxHeight (recomputing width)". -/
def specClampH (r : ℚ) (mh : Option ℚ) (p : ℚ × ℚ) : ℚ × ℚ :=
  match mh with
  | some m => (min p.2 m * r, min p.2 m)
  | none => p

/-- Modelled from the spec (§4.1, claim C7's wording), for comparison with
`calculateSize`: "start from container width, derive height = width/ratio;
if height exceeds container height, recompute from height instead; then
clamp to maxWidth/maxHeight if provided, preserving the ratio at each
clamp step (order: width-clamp then height-clamp)". -/
def specAspectSize (r : ℚ) (mw mh : Option ℚ) (cw ch : ℚ) : ℚ × ℚ :=
  specClampH r mh (specClampW r mw (aspectBase r cw ch))

/-- `DEFAULT_VERTEX_SHADER` from `constants.ts`. -/
def DEFAULT_VERTEX_SHADER : String :=
  "\nvarying vec2 vUv;\n\nvoid main() \x7b\n  vUv = uv;\n  gl_Position = projectionMatrix * modelViewMatrix * vec4(position, 1.0);\n\x7d\n"

/-- `FALLBACK_FRAGMENT_SHADER` from `constants.ts` ("magenta = error
indicator"). Exported from the package index but referenced nowhere else. -/
def FALLBACK_FRAGMENT_SHADER : String :=
  "\nvarying vec2 vUv;\n\nvoid main() \x7b\n  gl_FragColor = vec4(1.0, 0.0, 1.0, 1.0);\n\x7d\n"

/-- The mutable refs of `ShaderCanvasInner` that the animation loop and the
imperative control surface read and write, for a mounted surface (the
material created by the setup effect is live). `renders` counts
`renderer.render(scene, camera)` calls, `frameLog` records each `onFrame`
invocation's `(time, deltaTime)` arguments. -/
structure AnimState where
  time : ℚ
  isPlaying : Bool
  lastTimestamp : Option ℚ
  playbackSpeed : ℚ
  uniforms : Uniforms
  mouseP : ℚ × ℚ
  mouseN : ℚ × ℚ
  renders : ℕ
  frameLog : List (ℚ × ℚ)
  deriving DecidableEq, Repr

/-- Ref initialisation plus the tail of the setup effect (lines 53-60 and
176-182): refs start at `initialTime` / `autoPlay` / `playbackSpeed` with
no last-tick timestamp; when `autoPlay` is off the effect issues one
render instead of scheduling the loop. -/
def initAnimState (autoPlay : Bool) (initialTime pbSpeed : ℚ)
    (us : Uniforms) : AnimState :=
  { time := initialTime, isPlaying := autoPlay, lastTimestamp := none,
    playbackSpeed := pbSpeed, uniforms := us, mouseP := (0, 0),
    mouseN := (0, 0), renders := if autoPlay then 0 else 1, frameLog := [] }

/-- One run of `animate(timestamp)` (setup-effect version, lines 148-174):
return early when not playing; otherwise take the last timestamp (the
current one on the first tick after a play), advance the clock by
`(timestamp - last) / 1000 * speed`, write the time and mouse uniforms
when registered, fire `onFrame`, and render. -/
def tick (timestamp : ℚ) (st : AnimState) : AnimState :=
  if st.isPlaying then
    let last := st.lastTimestamp.getD timestamp
    let deltaMs := timestamp - last
    let deltaTime := deltaMs / 1000 * st.playbackSpeed
    let time1 := st.time + deltaTime
    let us1 := setU st.uniforms "u_time" (UValue.num time1)
    let us2 := setU us1 "u_mouse" (UValue.vec2 st.mouseP.1 st.mouseP.2)
    let us3 := setU us2 "u_mouseNormalized" (UValue.vec2 st.mouseN.1 st.mouseN.2)
    { st with
      time := time1, lastTimestamp := some timestamp, uniforms := us3,
      frameLog := st.frameLog ++ [(time1, deltaTime)],
      renders := st.renders + 1 }
  else st

/-- The `deltaTime` the next `animate(timestamp)` run would compute. -/
def tickDelta (timestamp : ℚ) (st : AnimState) : ℚ :=
  (timestamp - st.lastTimestamp.getD timestamp) / 1000 * st.playbackSpeed

/-- `play` (lines 228-262): no-op when already playing; otherwise mark
playing, clear the last-tick timestamp and schedule the loop. -/
def play (st : AnimState) : AnimState :=
  if st.isPlaying then st
  else { st with isPlaying := true, lastTimestamp := none }

/-- `pause` (lines 264-270): stop playing and cancel the pending tick. -/
def pause (st : AnimState) : AnimState :=
  { st with isPlaying := false }

/-- `reset` (lines 272-279): clock back to `initialTime`, last-tick
timestamp cleared, `u_time` rewritten when registered. No render call. -/
def reset (initialTime : ℚ) (st : AnimState) : AnimState :=
  { st with
    time := initialTime, lastTimestamp := none,
    uniforms := setU st.uniforms "u_time" (UValue.num initialTime) }

/-- `setTime` (lines 281-287): clock set to `t` absolutely, `u_time`
rewritten when registered. No render call, play state untouched. -/
def setTime (t : ℚ) (st : AnimState) : AnimState :=
  { st with time := t, uniforms := setU st.uniforms "u_time" (UValue.num t) }

/-- `setPlaybackSpeed` (lines 289-291). -/
def setPlaybackSpeed (s : ℚ) (st : AnimState) : AnimState :=
  { st with playbackSpeed := s }

/-- `updateUniform` (lines 293-298): guarded write into the material's
uniform store; absent names fall through the guard untouched. -/
def updateUniform (name : String) (v : UValue) (st : AnimState) : AnimState :=
  { st with uniforms := setU st.uniforms name v }

/-- `getUniform` (lines 300-303): `material?.uniforms[name]?.value`. -/
def getUniform (name : String) (st : AnimState) : Option UValue :=
  getU st.uniforms name

/-- The clock values observed after each tick of a timestamp sequence. -/
def clockTrace (tss : List ℚ) (st : AnimState) : List ℚ :=
  match tss with
  | [] => []
  | ts :: rest =>
      let st1 := tick ts st
      st1.time :: clockTrace rest st1

/-- The setup effect's dependency array (ShaderCanvas.tsx line 225):
`[fragmentShader, vertexShader, transparent, antialias, actualPixelRatio,
size, enableTimeUniform, enableResolutionUniform, enableMouseUniform,
autoPlay]`. `pixelDensity` stands for `actualPixelRatio`. -/
structure EffectDeps where
  fragmentShader : String
  vertexShader : String
  transparent : Bool
  antialias : Bool
  pixelDensity : ℚ
  size : SizeMode
  enableTimeUniform : Bool
  enableResolutionUniform : Bool
  enableMouseUniform : Bool
  autoPlay : Bool
  deriving DecidableEq, Repr

/-- React re-runs an effect when any entry of its dependency array changed
between renders (element-wise comparison). -/
def depsChanged (a b : EffectDeps) : Bool :=
  decide (¬ a.fragmentShader = b.fragmentShader) ||
  decide (¬ a.vertexShader = b.vertexShader) ||
  decide (¬ a.transparent = b.transparent) ||
  decide (¬ a.antialias = b.antialias) ||
  decide (¬ a.pixelDensity = b.pixelDensity) ||
  decide (¬ a.size = b.size) ||
  decide (¬ a.enableTimeUniform = b.enableTimeUniform) ||
  decide (¬ a.enableResolutionUniform = b.enableResolutionUniform) ||
  decide (¬ a.enableMouseUniform = b.enableMouseUniform) ||
  decide (¬ a.autoPlay = b.autoPlay)

/-- The whole drawing surface (renderer, scene, camera, mesh, material,
geometry) is created inside the one setup effect and destroyed in its
cleanup (lines 70-225), so React's effect semantics make "surface torn
down and recreated between two committed configurations" exactly
"the dependency array changed". -/
def surfaceRecreated (a b : EffectDeps) : Bool :=
  depsChanged a b

/-- The `THREE.ShaderMaterial` configuration record (lines 112-117). -/
structure ShaderMaterialT where
  uniforms : Uniforms
  vertexShader : String
  fragmentShader : String
  transparent : Bool
  deriving DecidableEq, Repr

/-- Material creation in the setup effect: the caller's fragment source is
passed to the material verbatim — there is no try/catch around it, no
compile check, and no substitution of `FALLBACK_FRAGMENT_SHADER`. -/
def createMaterial (us : Uniforms) (vs fs : String) : ShaderMaterialT :=
  { uniforms := us, vertexShader := vs, fragmentShader := fs,
    transparent := true }

/-- What one run of the setup effect produces that claim C3 can observe:
the material it builds, and whether the `onError` prop was invoked.
`onErrorInvoked` is `false` by translation: `onError` is declared in
`ShaderCanvasProps` (types.ts line 103) but no statement in the component
ever calls it. -/
structure SetupRun where
  material : ShaderMaterialT
  onErrorInvoked : Bool
  deriving DecidableEq, Repr

/-- The setup effect's material-construction path (lines 97-118) for a
given fragment/vertex source and uniform flags. -/
def setupEffect (fs vs : String)
    (enableTime enableResolution enableMouse : Bool)
    (custom : Uniforms) : SetupRun :=
  { material :=
      createMaterial (buildUniforms enableTime enableResolution enableMouse custom) vs fs,
    onErrorInvoked := false }

/-- The renderer's canvas element: `preserveDrawingBuffer: true` (line 79)
keeps the most recently rendered frame in the buffer. -/
structure RendererT where
  domElementContent : String
  deriving DecidableEq, Repr

/-- Modelled from the spec: `canvas.toDataURL('image/png')` is a browser
primitive (not in src/); spec §6 states it yields a base64-embedded
lossless raster image of the current buffer. -/
def toDataURL (r : RendererT) : String :=
  "data:image/png;base64," ++ r.domElementContent

/-- `renderer.render(scene, camera)` as the canvas buffer sees it: the
frame drawn from the current scene/camera/material replaces the buffer. -/
def renderFrame (frame : String) (_ : RendererT) : RendererT :=
  { domElementContent := frame }

/-- `captureFrame` (lines 305-307):
`rendererRef.current?.domElement.toDataURL('image/png') ?? ''`. -/
def captureFrame (rendererRef : Option RendererT) : String :=
  (rendererRef.map toDataURL).getD ""

/-- A fully-enabled mounted state: the default configuration
(`autoPlay = true`, `initialTime = 0`, `playbackSpeed = 1`, all built-in
uniforms enabled, no custom uniforms). -/
def st0 : AnimState :=
  initAnimState true 0 1 (buildUniforms true true true [])

/-- `st0` after one animation-loop run at timestamp 100. -/
def stAfterTick : AnimState := tick 100 st0

/-- A Stopped state with a recorded last-tick timestamp. -/
def stStopped : AnimState := pause stAfterTick

/-- A committed configuration for the setup effect's dependency list. -/
def depsExample : EffectDeps :=
  { fragmentShader := "frag-src", vertexShader := "vert-src",
    transparent := false, antialias := true, pixelDensity := 1,
    size := SizeMode.fill, enableTimeUniform := true,
    enableResolutionUniform := true, enableMouseUniform := true,
    autoPlay := true }

/-- `depsExample` with only the pointer-position-enable flag flipped. -/
def depsExampleMouseOff : EffectDeps :=
  { depsExample with enableMouseUniform := false }

/-- A malformed fragment shader source. -/
def badFragmentSource : String := "void main( broken"

/-! ## Helper lemmas on the uniform store -/

theorem setU_of_getU_none (us : Uniforms) (name : String) (v : UValue)
    (h : getU us name = none) : setU us name v = us := by
  induction us with
  | nil => rfl
  | cons kv rest ih =>
      obtain ⟨k, w⟩ := kv
      simp only [getU, List.lookup] at h ih
      by_cases hk : name = k
      · simp [hk] at h
      · have hk2 : ¬ k = name := fun e => hk e.symm
        have hbeq : (name == k) = false := by
          simp [Ne.symm hk2]
        rw [hbeq] at h
        simp only [setU, if_neg hk2]
        rw [ih h]

theorem getU_setU_self (us : Uniforms) (name : String) (v : UValue)
    (h : getU us name ≠ none) : getU (setU us name v) name = some v := by
  induction us with
  | nil => simp [getU] at h
  | cons kv rest ih =>
      obtain ⟨k, w⟩ := kv
      by_cases hk : k = name
      · subst hk
        simp [setU, getU, List.lookup]
      · have hbeq : (name == k) = false := by
          simp [Ne.symm hk]
        simp only [getU, List.lookup, hbeq] at h ⊢
        simp only [setU, if_neg hk]
        simp only [List.lookup, hbeq]
        exact ih h

/-! ## Claim theorems -/

/-- Claim C8 (confirmed): for every name not present in the uniform
registry and every value, `updateUniform(name, value)` is a no-op (the
guarded write falls through), every registered uniform keeps its value,
and `getUniform(name)` still returns `undefined` afterwards. -/
theorem updateUniform_unknown_name_noop (st : AnimState) (name : String)
    (v : UValue) (h : getUniform name st = none) :
    updateUniform name v st = st ∧
    getUniform name (updateUniform name v st) = none ∧
    ∀ other : String,
      getUniform other (updateUniform name v st) = getUniform other st := by
  have hs : setU st.uniforms name v = st.uniforms :=
    setU_of_getU_none _ _ _ h
  have h1 : updateUniform name v st = st := by
    simp [updateUniform, hs]
  refine ⟨h1, ?_, fun other => by rw [h1]⟩
  rw [h1]
  exact h

/-- Witness for C8: `updateUniform('nonexistentName', 1)` on the default
mounted state, exactly as in the spec's test sentence. -/
theorem updateUniform_unknown_name_noop_witness :
    getUniform "nonexistentName" st0 = none ∧
    updateUniform "nonexistentName" (UValue.num 1) st0 = st0 ∧
    getUniform "nonexistentName"
      (updateUniform "nonexistentName" (UValue.num 1) st0) = none :=
  ⟨by decide,
   (updateUniform_unknown_name_noop st0 "nonexistentName" (UValue.num 1)
      (by decide)).1,
   (updateUniform_unknown_name_noop st0 "nonexistentName" (UValue.num 1)
      (by decide)).2.1⟩

/-- Claim C9 (confirmed): `captureFrame()` never fails — with an Active
surface it returns the canvas buffer (holding the most recently rendered
frame, kept by `preserveDrawingBuffer: true`) encoded as a PNG data URL,
and with no surface (`rendererRef.current === null`) the nullish fallback
yields the empty string instead of a thrown error. -/
theorem captureFrame_never_fails :
    captureFrame none = "" ∧
    ∀ (frame : String) (r : RendererT),
      captureFrame (some (renderFrame frame r)) =
        "data:image/png;base64," ++ frame :=
  ⟨rfl, fun _ _ => rfl⟩

/-- Claim C10 (confirmed): in fill mode the minimum-default fallback is
applied independently per axis — width falls back to 300 exactly when the
measured width is zero, height to 150 exactly when the measured height is
zero; a 0×400 container yields 300×400 and a 0×0 container 300×150. -/
theorem fill_fallback_per_axis (cw ch ww wh : ℚ) :
    calculateSize SizeMode.fill cw ch ww wh =
      (if cw = 0 then 300 else cw, if ch = 0 then 150 else ch) ∧
    calculateSize SizeMode.fill 0 400 ww wh = (300, 400) ∧
    calculateSize SizeMode.fill 0 0 ww wh = (300, 150) := by
  refine ⟨rfl, ?_, ?_⟩ <;> norm_num [calculateSize, jsOr]

/-- Claim C3 (code_bug): on a malformed fragment source the component
does not substitute `FALLBACK_FRAGMENT_SHADER` (the constant is exported
but unused) and never invokes the declared `onError` prop — the material
is created with the malformed source verbatim. This contradicts the
component's own API documentation (`onError`: "Callback on shader
compilation error") and the fallback constant's stated purpose. -/
theorem malformed_shader_no_fallback_no_error_report :
    (setupEffect badFragmentSource DEFAULT_VERTEX_SHADER true true true
        []).material.fragmentShader = badFragmentSource ∧
    badFragmentSource ≠ FALLBACK_FRAGMENT_SHADER ∧
    (setupEffect badFragmentSource DEFAULT_VERTEX_SHADER true true true
        []).onErrorInvoked = false := by
  refine ⟨rfl, ?_, rfl⟩
  decide

/-- Counterexample to C2 as stated: on the default mounted state,
`setTime(5)` sets the clock and the `u_time` uniform but does not issue
the immediate render the claim requires — the render count is unchanged
rather than incremented. -/
theorem setTime_no_immediate_render :
    (setTime 5 st0).renders ≠ st0.renders + 1 ∧
    getUniform "u_time" (setTime 5 st0) = some (UValue.num 5) ∧
    (setTime 5 st0).time = 5 := by
  decide

/-- Claim C2 (corrected): `setTime(t)` sets the clock to `t` absolutely
(not as an offset), writes `t` into the time uniform so `getUniform`
returns it immediately without a tick, and leaves the play/pause state
unchanged — but it issues no immediate render (the new time becomes
visible only at the next tick). -/
theorem setTime_absolute_no_render (st : AnimState) (t : ℚ)
    (h : getUniform "u_time" st ≠ none) :
    (setTime t st).time = t ∧
    getUniform "u_time" (setTime t st) = some (UValue.num t) ∧
    (setTime t st).isPlaying = st.isPlaying ∧
    (setTime t st).renders = st.renders := by
  refine ⟨rfl, ?_, rfl, rfl⟩
  exact getU_setU_self st.uniforms "u_time" (UValue.num t) h

/-- Witness for C2's amended theorem: `setTime(5)` then
`getUniform('u_time') = 5`, the spec's round-trip, on `st0`. -/
theorem setTime_absolute_no_render_witness :
    (setTime 5 st0).time = 5 ∧
    getUniform "u_time" (setTime 5 st0) = some (UValue.num 5) ∧
    (setTime 5 st0).isPlaying = st0.isPlaying ∧
    (setTime 5 st0).renders = st0.renders :=
  setTime_absolute_no_render st0 5 (by decide)

/-- Counterexample to C4 as stated: on a Stopped state, `reset()` sets
the clock back and clears the last-tick reference but issues no render —
the render count stays unchanged, so the reset is not visible while
Stopped. -/
theorem reset_no_immediate_render_while_stopped :
    stStopped.isPlaying = false ∧
    (reset 0 stStopped).renders ≠ stStopped.renders + 1 ∧
    (reset 0 stStopped).time = 0 ∧
    (reset 0 stStopped).lastTimestamp = none := by
  decide

/-- Claim C4 (corrected): `reset()` sets the clock to the configured
initial value, clears the last-tick timestamp reference, and rewrites the
time uniform — but it issues no immediate render, so while Stopped the
reset only becomes visible at the next render. -/
theorem reset_restores_initial_no_render (st : AnimState) (initialTime : ℚ)
    (h : getUniform "u_time" st ≠ none) :
    (reset initialTime st).time = initialTime ∧
    (reset initialTime st).lastTimestamp = none ∧
    getUniform "u_time" (reset initialTime st) =
      some (UValue.num initialTime) ∧
    (reset initialTime st).renders = st.renders := by
  refine ⟨rfl, rfl, ?_, rfl⟩
  exact getU_setU_self st.uniforms "u_time" (UValue.num initialTime) h

/-- Witness for C4's amended theorem: `reset(7)` on a Stopped state. -/
theorem reset_restores_initial_no_render_witness :
    (reset 7 stStopped).time = 7 ∧
    (reset 7 stStopped).lastTimestamp = none ∧
    getUniform "u_time" (reset 7 stStopped) = some (UValue.num 7) ∧
    (reset 7 stStopped).renders = stStopped.renders :=
  reset_restores_initial_no_render stStopped 7 (by decide)

/-- Counterexample to C5 as stated: the call sequence
mount (autoPlay) → `tick 100` → `play()` → `tick 200` ends in a `play()`,
yet the first tick after that `play()` computes `delta = 1/10 ≠ 0`:
`play()` while already Playing is a no-op and leaves the last-tick
reference at 100. -/
theorem play_while_playing_nonzero_delta :
    stAfterTick.isPlaying = true ∧
    play stAfterTick = stAfterTick ∧
    tickDelta 200 (play stAfterTick) = 1 / 10 ∧
    (tick 200 (play stAfterTick)).time = stAfterTick.time + 1 / 10 ∧
    (1 : ℚ) / 10 ≠ 0 := by
  have hplay : play stAfterTick = stAfterTick := rfl
  refine ⟨rfl, hplay, ?_, ?_, by norm_num⟩
  · rw [hplay]
    norm_num [stAfterTick, st0, initAnimState, tick, tickDelta]
  · rw [hplay]
    norm_num [stAfterTick, st0, initAnimState, tick, tickDelta]

/-- Claim C5 (corrected): for every call sequence ending in a `play()`
invoked while not Playing (in particular `pause()` then `play()`), the
first tick after that `play()` computes `delta = 0` regardless of elapsed
wall-clock time, because `play()` resets the last-tick reference to
unset; a `play()` issued while already Playing is a no-op and gives no
such guarantee. -/
theorem play_from_stopped_first_tick_delta_zero (st : AnimState) (ts : ℚ)
    (h : st.isPlaying = false) :
    (play st).isPlaying = true ∧
    tickDelta ts (play st) = 0 ∧
    (tick ts (play st)).time = st.time := by
  have hp : play st = { st with isPlaying := true, lastTimestamp := none } := by
    simp [play, h]
  rw [hp]
  refine ⟨rfl, ?_, ?_⟩
  · simp [tickDelta]
  · simp [tick]

/-- Witness for C5's amended theorem: `pause()` then `play()` then one
tick at timestamp 200 leaves the clock where it was (`delta = 0`). -/
theorem play_from_stopped_first_tick_delta_zero_witness :
    (play stStopped).isPlaying = true ∧
    tickDelta 200 (play stStopped) = 0 ∧
    (tick 200 (play stStopped)).time = stStopped.time :=
  play_from_stopped_first_tick_delta_zero stStopped 200 (by decide)

theorem tick_isPlaying_of_playing (st : AnimState) (ts : ℚ)
    (h : st.isPlaying = true) : (tick ts st).isPlaying = true := by
  simp [tick, h]

theorem tick_speed_eq (st : AnimState) (ts : ℚ) :
    (tick ts st).playbackSpeed = st.playbackSpeed := by
  by_cases h : st.isPlaying <;> simp [tick, h]

theorem tick_lastTimestamp_of_playing (st : AnimState) (ts : ℚ)
    (h : st.isPlaying = true) : (tick ts st).lastTimestamp = some ts := by
  simp [tick, h]

theorem tick_time_of_playing (st : AnimState) (ts : ℚ)
    (h : st.isPlaying = true) :
    (tick ts st).time =
      st.time + (ts - st.lastTimestamp.getD ts) / 1000 * st.playbackSpeed := by
  simp [tick, h]

theorem clockTrace_chain_le (tss : List ℚ) (st : AnimState)
    (hp : st.isPlaying = true)
    (hc : List.Chain' (fun a b => a ≤ b) (st.lastTimestamp.toList ++ tss))
    (hs : 0 ≤ st.playbackSpeed) :
    List.Chain' (fun a b => a ≤ b) (st.time :: clockTrace tss st) := by
  induction tss generalizing st with
  | nil => simp [clockTrace]
  | cons ts rest ih =>
      have hstep : st.time ≤ (tick ts st).time := by
        rw [tick_time_of_playing st ts hp]
        cases hl : st.lastTimestamp with
        | none => simp
        | some l =>
            rw [hl] at hc
            simp only [Option.toList_some, List.cons_append, List.nil_append,
              List.chain'_cons] at hc
            have h1 : (0 : ℚ) ≤ (ts - l) / 1000 :=
              div_nonneg (by linarith [hc.1]) (by norm_num)
            simp only [Option.getD_some]
            nlinarith [mul_nonneg h1 hs]
      have hc1 : List.Chain' (fun a b => a ≤ b)
          ((tick ts st).lastTimestamp.toList ++ rest) := by
        rw [tick_lastTimestamp_of_playing st ts hp]
        cases hl : st.lastTimestamp with
        | none =>
            rw [hl] at hc
            simpa using hc
        | some l =>
            rw [hl] at hc
            simp only [Option.toList_some, List.cons_append, List.nil_append,
              List.chain'_cons] at hc
            simpa using hc.2
      have htail := ih (tick ts st) (tick_isPlaying_of_playing st ts hp) hc1
        (by rw [tick_speed_eq]; exact hs)
      simp only [clockTrace]
      exact List.chain'_cons.mpr ⟨hstep, htail⟩

theorem clockTrace_chain_ge (tss : List ℚ) (st : AnimState)
    (hp : st.isPlaying = true)
    (hc : List.Chain' (fun a b => a ≤ b) (st.lastTimestamp.toList ++ tss))
    (hs : st.playbackSpeed ≤ 0) :
    List.Chain' (fun a b => b ≤ a) (st.time :: clockTrace tss st) := by
  induction tss generalizing st with
  | nil => simp [clockTrace]
  | cons ts rest ih =>
      have hstep : (tick ts st).time ≤ st.time := by
        rw [tick_time_of_playing st ts hp]
        cases hl : st.lastTimestamp with
        | none => simp
        | some l =>
            rw [hl] at hc
            simp only [Option.toList_some, List.cons_append, List.nil_append,
              List.chain'_cons] at hc
            have h1 : (0 : ℚ) ≤ (ts - l) / 1000 :=
              div_nonneg (by linarith [hc.1]) (by norm_num)
            simp only [Option.getD_some]
            nlinarith [mul_nonneg h1 (neg_nonneg.mpr hs)]
      have hc1 : List.Chain' (fun a b => a ≤ b)
          ((tick ts st).lastTimestamp.toList ++ rest) := by
        rw [tick_lastTimestamp_of_playing st ts hp]
        cases hl : st.lastTimestamp with
        | none =>
            rw [hl] at hc
            simpa using hc
        | some l =>
            rw [hl] at hc
            simp only [Option.toList_some, List.cons_append, List.nil_append,
              List.chain'_cons] at hc
            simpa using hc.2
      have htail := ih (tick ts st) (tick_isPlaying_of_playing st ts hp) hc1
        (by rw [tick_speed_eq]; exact hs)
      simp only [clockTrace]
      exact List.chain'_cons.mpr ⟨hstep, htail⟩

theorem clockTrace_const_of_speed_zero (tss : List ℚ) (st : AnimState)
    (hp : st.isPlaying = true) (hs : st.playbackSpeed = 0) :
    ∀ x ∈ clockTrace tss st, x = st.time := by
  induction tss generalizing st with
  | nil => simp [clockTrace]
  | cons ts rest ih =>
      have ht : (tick ts st).time = st.time := by
        rw [tick_time_of_playing st ts hp, hs, mul_zero, add_zero]
      simp only [clockTrace, List.mem_cons]
      rintro x (rfl | hx)
      · exact ht
      · have := ih (tick ts st) (tick_isPlaying_of_playing st ts hp)
          (by rw [tick_speed_eq]; exact hs) x hx
        rw [this, ht]

/-- Claim C6 (confirmed): over any tick sequence with non-decreasing
wall-clock timestamps while Playing, playback speed 1 makes the clock
non-decreasing across ticks, speed -1 makes it non-increasing, and
speed 0 keeps it constant. The timestamp hypothesis also covers the
stored last-tick timestamp, which an earlier tick took from the same
non-decreasing wall clock. -/
theorem clock_monotone_by_speed (st : AnimState) (tss : List ℚ)
    (hp : st.isPlaying = true)
    (hc : List.Chain' (fun a b => a ≤ b) (st.lastTimestamp.toList ++ tss)) :
    (st.playbackSpeed = 1 →
      List.Chain' (fun a b => a ≤ b) (st.time :: clockTrace tss st)) ∧
    (st.playbackSpeed = -1 →
      List.Chain' (fun a b => b ≤ a) (st.time :: clockTrace tss st)) ∧
    (st.playbackSpeed = 0 → ∀ x ∈ clockTrace tss st, x = st.time) :=
  ⟨fun h1 => clockTrace_chain_le tss st hp hc (by rw [h1]; norm_num),
   fun h2 => clockTrace_chain_ge tss st hp hc (by rw [h2]; norm_num),
   fun h0 => clockTrace_const_of_speed_zero tss st hp h0⟩

/-- Witness for C6: the default Playing state at speed 1 ticked at
timestamps 100 then 150 has a non-decreasing clock trace. -/
theorem clock_monotone_by_speed_witness :
    List.Chain' (fun a b => a ≤ b) (st0.time :: clockTrace [100, 150] st0) :=
  (clock_monotone_by_speed st0 [100, 150] rfl
    (by simp [st0, initAnimState]; norm_num)).1 rfl

theorem aspectBase_snd (r cw ch : ℚ) (hr : r ≠ 0) :
    (aspectBase r cw ch).2 = (aspectBase r cw ch).1 / r := by
  unfold aspectBase
  split
  · exact (mul_div_cancel_right₀ ch hr).symm
  · rfl

theorem codeClampW_eq_specClampW (r : ℚ) (mw : Option ℚ) (p : ℚ × ℚ)
    (hm : ∀ m ∈ mw, 0 < m) (hp2 : p.2 = p.1 / r) :
    codeClampW r mw p = specClampW r mw p := by
  cases mw with
  | none => simp [codeClampW, specClampW, jsBoundActive]
  | some m =>
      have hm0 : 0 < m := hm m (by simp)
      by_cases hgt : p.1 > m
      · have hb : jsBoundActive (some m) (fun b => p.1 > b) = true := by
          simp [jsBoundActive, hgt]
          exact hm0.ne'
        simp only [codeClampW, specClampW, hb, if_true, Option.getD_some]
        rw [min_eq_right (le_of_lt hgt)]
      · have hb : jsBoundActive (some m) (fun b => p.1 > b) = false := by
          simp [jsBoundActive, hgt]
        simp only [codeClampW, specClampW, hb, Bool.false_eq_true,
          if_false]
        rw [min_eq_left (not_lt.mp hgt)]
        exact Prod.ext rfl hp2

theorem codeClampW_snd (r : ℚ) (mw : Option ℚ) (p : ℚ × ℚ)
    (hp2 : p.2 = p.1 / r) :
    (codeClampW r mw p).2 = (codeClampW r mw p).1 / r := by
  unfold codeClampW
  split
  · rfl
  · exact hp2

theorem codeClampH_eq_specClampH (r : ℚ) (mh : Option ℚ) (p : ℚ × ℚ)
    (hr : r ≠ 0) (hm : ∀ m ∈ mh, 0 < m) (hp2 : p.2 = p.1 / r) :
    codeClampH r mh p = specClampH r mh p := by
  have hp1 : p.2 * r = p.1 := by
    rw [hp2]
    exact div_mul_cancel₀ p.1 hr
  cases mh with
  | none => simp [codeClampH, specClampH, jsBoundActive]
  | some m =>
      have hm0 : 0 < m := hm m (by simp)
      by_cases hgt : p.2 > m
      · have hb : jsBoundActive (some m) (fun b => p.2 > b) = true := by
          simp [jsBoundActive, hgt]
          exact hm0.ne'
        simp only [codeClampH, specClampH, hb, if_true, Option.getD_some]
        rw [min_eq_right (le_of_lt hgt)]
      · have hb : jsBoundActive (some m) (fun b => p.2 > b) = false := by
          simp [jsBoundActive, hgt]
        simp only [codeClampH, specClampH, hb, Bool.false_eq_true,
          if_false]
        rw [min_eq_left (not_lt.mp hgt)]
        exact Prod.ext hp1.symm rfl

/-- Claim C7 (confirmed): in aspect mode the logical size follows the
spec's algorithm — width from the container, height = width/ratio,
recomputed from the container height on overflow, then a ratio-preserving
width-clamp followed by a ratio-preserving height-clamp — and for
`aspectRatio 2`, `maxWidth 400`, container 1000×200 the result is
400×200. The positivity/nonzero hypotheses reflect the claim's setting: a
nonzero ratio, positive bounds (JS treats a 0 bound as absent), and a
container measuring nonzero in both axes (JS falls back to the window
size on a 0 measurement). -/
theorem aspect_size_follows_spec (r : ℚ) (mw mh : Option ℚ)
    (cw ch ww wh : ℚ) (hr : r ≠ 0) (hmw : ∀ m ∈ mw, 0 < m)
    (hmh : ∀ m ∈ mh, 0 < m) (hcw : cw ≠ 0) (hch : ch ≠ 0) :
    calculateSize (SizeMode.aspect r mw mh) cw ch ww wh =
      specAspectSize r mw mh cw ch ∧
    calculateSize (SizeMode.aspect 2 (some 400) none) 1000 200 ww wh =
      (400, 200) := by
  constructor
  · have hw : jsOr cw ww = cw := if_neg hcw
    have hh : jsOr ch wh = ch := if_neg hch
    have h1 := aspectBase_snd r cw ch hr
    have h2 := codeClampW_snd r mw (aspectBase r cw ch) h1
    simp only [calculateSize, hw, hh, specAspectSize]
    rw [codeClampH_eq_specClampH r mh _ hr hmh h2,
      codeClampW_eq_specClampW r mw _ hmw h1]
  · norm_num [calculateSize, codeClampW, codeClampH, aspectBase,
      jsBoundActive, jsOr]

/-- Witness for C7: the spec's own example, `aspect{ratio:2,
maxWidth:400}` on a 1000×200 container, matches the spec-side computation
and equals 400×200. -/
theorem aspect_size_follows_spec_witness :
    calculateSize (SizeMode.aspect 2 (some 400) none) 1000 200 0 0 =
      specAspectSize 2 (some 400) none 1000 200 ∧
    calculateSize (SizeMode.aspect 2 (some 400) none) 1000 200 0 0 =
      (400, 200) := by
  have h := aspect_size_follows_spec 2 (some 400) none 1000 200 0 0
    (by norm_num)
    (by intro m hm; simp only [Option.mem_def, Option.some.injEq] at hm
        rw [← hm]; norm_num)
    (by intro m hm; simp at hm)
    (by norm_num) (by norm_num)
  exact ⟨h.1, h.2⟩

/-- Counterexample to C1 as stated: two committed configurations
differing only in the pointer-position-enable flag (every other
dependency equal) still make the setup effect re-run, i.e. the drawing
surface is torn down and recreated. -/
theorem mouse_flag_change_recreates_surface :
    depsExample.fragmentShader = depsExampleMouseOff.fragmentShader ∧
    depsExample.vertexShader = depsExampleMouseOff.vertexShader ∧
    depsExample.transparent = depsExampleMouseOff.transparent ∧
    depsExample.antialias = depsExampleMouseOff.antialias ∧
    depsExample.pixelDensity = depsExampleMouseOff.pixelDensity ∧
    depsExample.size = depsExampleMouseOff.size ∧
    depsExample.enableTimeUniform = depsExampleMouseOff.enableTimeUniform ∧
    depsExample.enableResolutionUniform =
      depsExampleMouseOff.enableResolutionUniform ∧
    depsExample.autoPlay = depsExampleMouseOff.autoPlay ∧
    depsExample.enableMouseUniform ≠ depsExampleMouseOff.enableMouseUniform ∧
    surfaceRecreated depsExample depsExampleMouseOff = true := by
  decide

/-- Claim C1 (corrected): the setup effect's dependency list contains
both the pointer-position-enable flag and the fragment shader source, so
changing either one forces a full surface teardown and recreate; only a
configuration with an unchanged dependency list (e.g. a container resize
or a uniform-value update) is handled in place without reconstruction. -/
theorem dependency_gated_surface_recreation (a b : EffectDeps) :
    (a.enableMouseUniform ≠ b.enableMouseUniform →
      surfaceRecreated a b = true) ∧
    (a.fragmentShader ≠ b.fragmentShader → surfaceRecreated a b = true) ∧
    surfaceRecreated a a = false := by
  refine ⟨fun h => ?_, fun h => ?_, ?_⟩
  · simp [surfaceRecreated, depsChanged, h]
  · simp [surfaceRecreated, depsChanged, h]
  · simp [surfaceRecreated, depsChanged]

/-- Witness for C1's amended theorem: flipping the pointer flag on the
example configuration recreates the surface; an identical configuration
does not. -/
theorem dependency_gated_surface_recreation_witness :
    surfaceRecreated depsExample depsExampleMouseOff = true ∧
    surfaceRecreated depsExample depsExample = false :=
  ⟨(dependency_gated_surface_recreation depsExample depsExampleMouseOff).1
      (by decide),
   (dependency_gated_surface_recreation depsExample depsExample).2.2⟩

end Sketch
